import Mathlib

/-!
Shallow embedding of the A.I. reply arena front-end
(src/frontend/src/App.jsx: the coordinator component App and the
per-instance component ChatInstance).

Network calls are modelled by passing the outcome of each round trip as an
explicit parameter; the requests a handler issues are returned as an
explicit list. JavaScript truthiness of strings (null, undefined and the
empty string are falsy) is modelled with Option String, where both none
and some "" count as falsy.
-/

namespace ReplyArena

/-- JavaScript String.prototype.trim: strip leading and trailing
whitespace. Defined by structural recursion on the character list so that
it evaluates inside the kernel. -/
def jsTrim (s : String) : String :=
  ⟨((s.data.dropWhile Char.isWhitespace).reverse.dropWhile Char.isWhitespace).reverse⟩

/-- JavaScript String.prototype.toLowerCase restricted to ASCII letters,
which covers every provider name compared against. -/
def jsLowerChar (c : Char) : Char :=
  if 65 ≤ c.toNat ∧ c.toNat ≤ 90 then Char.ofNat (c.toNat + 32) else c

/-- Lower-case a string character by character. -/
def jsToLower (s : String) : String :=
  ⟨s.data.map jsLowerChar⟩

/-- JavaScript `v || d` for a possibly null/undefined string `v`. -/
def jsOr (v : Option String) (d : String) : String :=
  match v with
  | some s => if s = "" then d else s
  | none => d

/-- JavaScript truthiness of a possibly null/undefined string. -/
def jsTruthy (v : Option String) : Bool :=
  match v with
  | some s => s ≠ ""
  | none => false

/-- An HTTP request issued by the front-end, identified by endpoint and body. -/
inductive Request where
  | modelsReq (provider : String)
  | saveKeyReq (provider apiKey : String)
  | getKeyReq (provider : String)
  | processReq (modelIdentifier prompt encryptedApiKey : String)
  | selectWinnerReq (modelIdentifier prompt response : String)
deriving Repr, DecidableEq

/-- A browser-level side effect performed by a handler. -/
inductive Effect where
  | openTab (base : String) (params : List (String × String))
  | callbackWinner (modelIdentifier modelName prompt response : String)
  | alertMsg (msg : String)
  | reloadAfter (ms : Nat)
  | consoleError (msg : String)
deriving Repr, DecidableEq

/-- Outcome of one HTTP round trip, as observed by the caller:
the fetch promise may reject, the response may have a non-ok status,
the body may fail to parse as JSON, or a body of type β is delivered. -/
inductive HttpOutcome (β : Type) where
  | netError (msg : String)
  | httpError (status : Nat)
  | badJson
  | ok (body : β)
deriving Repr, DecidableEq

/-- Body of a successful /api/models/provider response: the models field
may be absent (none). -/
structure ModelsBody where
  models : Option (List String)
deriving Repr, DecidableEq

/-- Body of a successful /api/keys/get response: the apiKey field may be
absent or null (none). -/
structure KeyBody where
  apiKey : Option String
deriving Repr, DecidableEq

/-- The try-block of fetchProviderModels: throws on a rejected fetch, on a
non-ok status (`HTTP error! status: ...`) and on a bad JSON body; otherwise
returns `data.models || []`. -/
def fetchProviderModelsTry (o : HttpOutcome ModelsBody) : Except String (List String) :=
  match o with
  | .netError msg => .error msg
  | .httpError status => .error ("HTTP error! status: " ++ toString status)
  | .badJson => .error "SyntaxError: unexpected end of JSON input"
  | .ok body => .ok (body.models.getD [])

/-- fetchProviderModels: the try-block wrapped in a catch that logs and
returns the empty list. -/
def fetchProviderModels (o : HttpOutcome ModelsBody) : List String :=
  match fetchProviderModelsTry o with
  | .ok l => l
  | .error _ => []

/-- The try-block of fetchProviderApiKey: throws on a rejected fetch, on a
non-ok status and on a bad JSON body; otherwise returns
`data.apiKey || null`. -/
def fetchProviderApiKeyTry (o : HttpOutcome KeyBody) : Except String (Option String) :=
  match o with
  | .netError msg => .error msg
  | .httpError status => .error ("HTTP error! status: " ++ toString status)
  | .badJson => .error "SyntaxError: unexpected end of JSON input"
  | .ok body => .ok (if jsTruthy body.apiKey then body.apiKey else none)

/-- fetchProviderApiKey: the try-block wrapped in a catch that logs and
returns null. -/
def fetchProviderApiKey (o : HttpOutcome KeyBody) : Option String :=
  match fetchProviderApiKeyTry o with
  | .ok k => k
  | .error _ => none

/-- Outcome of the try-block of saveProviderApiKey, as returned to the
caller: `{success: true}` or `{success: false, error}`. -/
inductive SaveResult where
  | success
  | failure (error : String)
deriving Repr, DecidableEq

/-- The ten provider names getProviderURL recognizes (after lower-casing). -/
def providerNames : List String :=
  ["openai", "claude", "cohere", "copilot", "deepseek",
   "gemini", "grok", "llama", "mistral", "qwen"]

/-- getProviderURL: switches on providerName.toLowerCase(); returns a URL
for the ten recognized providers and throws `Unsupported provider: ...`
otherwise. The throw is modelled as Except.error. -/
def getProviderURL (providerName : String) : Except String String :=
  let n := jsToLower providerName
  if n = "openai" then .ok "https://chatgpt.com/c/?prompt="
  else if n = "claude" then .ok "https://claude.ai/new?q="
  else if n = "cohere" then .ok "https://dashboard.cohere.com/playground/chat?q="
  else if n = "copilot" then .ok "https://copilot.microsoft.com/?q="
  else if n = "deepseek" then .ok "https://chat.deepseek.com/?q="
  else if n = "gemini" then .ok "https://aistudio.google.com/prompts/new_chat?prompt="
  else if n = "grok" then .ok "https://grok.com/?q="
  else if n = "llama" then .ok "https://llama.online/chat#"
  else if n = "mistral" then .ok "https://console.mistral.ai/build/playground?from=agents#"
  else if n = "qwen" then .ok "https://chat.qwen.ai/?text="
  else .error ("Unsupported provider: " ++ providerName)

/-- One record of the activeModels list (and of the localStorage mirror).
JavaScript null for encryptedApiKey is modelled as the empty string, which
is equally falsy at every use site. -/
structure ModelRecord where
  id : String
  name : String
  provider : String
  icon : String
  url : String
  encryptedApiKey : String
deriving Repr, DecidableEq

/-- The selectedModel state: the server model list may contain plain
strings or objects with a name field. -/
inductive ModelChoice where
  | str (s : String)
  | obj (name : String)
deriving Repr, DecidableEq

/-- JavaScript truthiness of a model choice: an empty plain string is
falsy, every object is truthy. -/
def ModelChoice.isTruthy : ModelChoice → Bool
  | .str s => s ≠ ""
  | .obj _ => true

/-- `typeof selectedModel === 'string' ? selectedModel : selectedModel.name`. -/
def ModelChoice.modelName : ModelChoice → String
  | .str s => s
  | .obj n => n

/-- One entry of the module-level icons array (derived from the asset
files, whose names are not part of the source tree). -/
structure IconEntry where
  path : String
  name : String
deriving Repr, DecidableEq

/-- `icons.find(i => i.name === selectedProvider)?.path || ''`. -/
def findIconPath (icons : List IconEntry) (provider : String) : String :=
  match icons.find? (fun i => i.name = provider) with
  | some i => if i.path = "" then "" else i.path
  | none => ""

/-- State of the coordinator component App. `storage` is the
localStorage entry `activeModels`. -/
structure AppState where
  hasConsented : Bool
  masterPrompt : String
  activeModels : List ModelRecord
  showAddModal : Bool
  isStarted : Bool
  triggerSend : Nat
  selectedProvider : Option String
  availableModels : List ModelChoice
  loadingModels : Bool
  selectedModel : Option ModelChoice
  apiKeyInput : String
  savingApiKey : Bool
  saveMessage : String
  instanceCount : Nat
  storage : List ModelRecord
deriving Repr, DecidableEq

/-- handleSendMasterPrompt: if the master prompt is non-empty after
trimming, mark the UI started and increment triggerSend by one. -/
def handleSendMasterPrompt (s : AppState) : AppState :=
  if jsTrim s.masterPrompt ≠ "" then
    { s with isStarted := true, triggerSend := s.triggerSend + 1 }
  else s

/-- The id generated for the i-th new instance record:
provider-modelName-timestamp-index-randomSuffix. -/
def mkInstanceId (provider modelName : String) (now i : Nat) (rand : String) : String :=
  provider ++ "-" ++ modelName ++ "-" ++ toString now ++ "-" ++ toString i ++ "-" ++ rand

/-- The i-th new instance record built by handleSaveApiKey. -/
def mkNewRecord (icons : List IconEntry) (now : Nat) (rand : Nat → String)
    (provider modelName url apiKey : String) (i : Nat) : ModelRecord :=
  { id := mkInstanceId provider modelName now i (rand i)
    name := modelName
    provider := provider
    icon := findIconPath icons provider
    url := url
    encryptedApiKey := apiKey }

/-- handleSaveApiKey: validates the key input and the model/provider
selection, performs the key-save round trip (its outcome is the saveRes
parameter), and on success builds instanceCount new records and appends
them to activeModels and to localStorage. `now` is Date.now() and `rand`
gives the random suffix of the i-th id. getProviderURL is called while
building the first record; when it throws, the exception escapes the
async handler and none of the later statements run. Returns the new state
and the list of requests issued. -/
def handleSaveApiKey (icons : List IconEntry) (now : Nat) (rand : Nat → String)
    (s : AppState) (saveRes : SaveResult) : AppState × List Request :=
  if jsTrim s.apiKeyInput = "" then
    ({ s with saveMessage := "❌ Please enter an API key" }, [])
  else
    match s.selectedModel, s.selectedProvider with
    | some m, some provider =>
      if m.isTruthy ∧ provider ≠ "" then
        let s1 := { s with savingApiKey := true, saveMessage := "⏳ Saving..." }
        let saveReq := Request.saveKeyReq provider s.apiKeyInput
        match saveRes with
        | .failure err =>
            ({ s1 with saveMessage := "❌ Failed to save: " ++ err,
                       savingApiKey := false }, [saveReq])
        | .success =>
            let modelName := m.modelName
            match getProviderURL provider with
            | .error _ => (s1, [saveReq])
            | .ok url =>
                let newModels := (List.range s.instanceCount).map
                  (mkNewRecord icons now rand provider modelName url s.apiKeyInput)
                let updated := s1.activeModels ++ newModels
                ({ s1 with activeModels := updated,
                           storage := updated,
                           saveMessage := "✓ Model(s) added successfully!",
                           savingApiKey := false }, [saveReq])
      else ({ s with saveMessage := "❌ Please select a model" }, [])
    | _, _ => ({ s with saveMessage := "❌ Please select a model" }, [])

/-- Props of the ChatInstance component, fixed for the lifetime of the
instance. A null/absent encryptedApiKey is modelled as the empty string
(equally falsy). -/
structure ChatProps where
  modelName : String
  modelIdentifier : String
  modelUrl : String
  provider : String
  encryptedApiKey : String
deriving Repr, DecidableEq

/-- Mutable state of the ChatInstance component. -/
structure ChatState where
  userPrompt : String
  aiResponse : String
  isInputHidden : Bool
  showButtons : Bool
  isLoading : Bool
  error : Option String
deriving Repr, DecidableEq

/-- Outcome of the /api/process round trip: the fetch or the JSON parse
may throw (netError carries err.message, with the empty string standing
for an absent message), or a body with optional reply and error fields is
delivered together with response.ok. -/
inductive ProcessOutcome where
  | netError (msg : String)
  | http (ok : Bool) (reply : Option String) (error : Option String)
deriving Repr, DecidableEq

/-- ChatInstance handleSend: returns early on a trimmed-empty prompt, and
with the message `API key missing. Please add it first.` on a falsy key;
otherwise issues exactly one /api/process request, renders the reply or an
error string, and in the finally block hides the input and shows the
action buttons. -/
def handleSend (p : ChatProps) (s : ChatState) (o : ProcessOutcome) :
    ChatState × List Request :=
  if jsTrim s.userPrompt = "" then (s, [])
  else if p.encryptedApiKey = "" then
    ({ s with aiResponse := "API key missing. Please add it first." }, [])
  else
    let req := Request.processReq p.modelIdentifier s.userPrompt p.encryptedApiKey
    let s1 := { s with isLoading := true, error := none }
    let s2 :=
      match o with
      | .netError msg =>
          { s1 with error := some (if msg = "" then "Failed to get AI response" else msg),
                    aiResponse := "Error: " ++ (if msg = "" then "Could not reach server" else msg) }
      | .http ok reply err =>
          if ok then { s1 with aiResponse := jsOr reply "No response from AI" }
          else { s1 with aiResponse := jsOr err "No reply received." }
    ({ s2 with isLoading := false, isInputHidden := true, showButtons := true }, [req])

/-- The useEffect on [triggerSend]: calls handleSend once whenever the
counter changes to a positive value. -/
def triggerEffect (p : ChatProps) (triggerSend : Nat) (s : ChatState)
    (o : ProcessOutcome) : ChatState × List Request :=
  if triggerSend > 0 then handleSend p s o else (s, [])

/-- The events that can reach a mounted chat instance: typing in its own
input, the masterPrompt sync effect, a click of its own send button, and
an increment of the trigger counter. -/
inductive ChatEvent where
  | editPrompt (v : String)
  | masterSync (v : String)
  | uiSend (o : ProcessOutcome)
  | trigger (o : ProcessOutcome)
deriving Repr, DecidableEq

/-- Whether an event is a master-prompt trigger. -/
def ChatEvent.isTrigger : ChatEvent → Bool
  | .trigger _ => true
  | _ => false

/-- One step of a chat instance. The instance input and its send button
are rendered only while isInputHidden is false, so editPrompt and uiSend
are no-ops once the input footer is hidden; the trigger effect runs
regardless of the rendered footer. -/
def chatStep (p : ChatProps) (s : ChatState) (e : ChatEvent) :
    ChatState × List Request :=
  match e with
  | .editPrompt v => if s.isInputHidden then (s, []) else ({ s with userPrompt := v }, [])
  | .masterSync v => ({ s with userPrompt := v }, [])
  | .uiSend o => if s.isInputHidden then (s, []) else handleSend p s o
  | .trigger o => handleSend p s o

/-- Run a sequence of events, collecting all requests issued. -/
def chatRun (p : ChatProps) (s : ChatState) : List ChatEvent → ChatState × List Request
  | [] => (s, [])
  | e :: rest =>
      let r1 := chatStep p s e
      let r2 := chatRun p r1.1 rest
      (r2.1, r1.2 ++ r2.2)

/-- Outcome of the on-mount /api/keys/get round trip of a chat instance. -/
inductive KeyFetchOutcome where
  | netError (msg : String)
  | httpRes (ok : Bool) (apiKey : Option String)
deriving Repr, DecidableEq

/-- The try-block of the on-mount key fetch effect of ChatInstance. When
the response is ok and carries a truthy apiKey, the handler evaluates
`setEncryptedApiKey(data.apiKey)`; the identifier setEncryptedApiKey is
not bound anywhere in the component (encryptedApiKey is a plain prop and
no useState setter has that name), so reaching the call raises a
ReferenceError, modelled as Except.error. -/
def fetchApiKeyTry (o : KeyFetchOutcome) : Except String Unit :=
  match o with
  | .netError msg => .error msg
  | .httpRes ok apiKey =>
      if ok then
        if jsTruthy apiKey then
          .error "ReferenceError: setEncryptedApiKey is not defined"
        else .ok ()
      else .ok ()

/-- The whole on-mount key fetch effect: the try-block wrapped in a catch
that only logs. The chat state is returned unchanged in every case. -/
def fetchApiKeyEffect (s : ChatState) (o : KeyFetchOutcome) :
    ChatState × List Effect :=
  match fetchApiKeyTry o with
  | .ok _ => (s, [])
  | .error e => (s, [.consoleError ("Failed to load API key: " ++ e)])

/-- Outcome of the try-block of handleSelectWinner: the /api/select-winner
fetch may reject, `new URL(modelUrl)` may throw on an invalid URL, or
everything succeeds. -/
inductive WinnerOutcome where
  | fetchThrow (msg : String)
  | urlInvalid
  | okDone
deriving Repr, DecidableEq

/-- The fixed tail appended to the reply query parameter. -/
def replyTail : String :=
  "Await further instructions. If you understood, reply with \"Let\x27s keep things going\"."

/-- ChatInstance handleSelectWinner: posts the exchange to
/api/select-winner, appends prompt and reply query parameters to the
model URL, opens it in a new tab, invokes the optional parent callback,
and in the finally block always schedules a page reload after 500ms. On
any throw the catch logs and alerts, and the finally still runs. Returns
the requests issued and the browser effects performed, in order. -/
def handleSelectWinner (p : ChatProps) (s : ChatState) (hasCallback : Bool)
    (o : WinnerOutcome) : List Request × List Effect :=
  let postReq := Request.selectWinnerReq p.modelIdentifier s.userPrompt s.aiResponse
  match o with
  | .fetchThrow msg =>
      ([postReq],
       [.consoleError ("Failed to select winner: " ++ msg),
        .alertMsg "Failed to process winner selection",
        .reloadAfter 500])
  | .urlInvalid =>
      ([postReq],
       [.consoleError "Failed to select winner: TypeError: Invalid URL",
        .alertMsg "Failed to process winner selection",
        .reloadAfter 500])
  | .okDone =>
      ([postReq],
       [.openTab p.modelUrl
          [("prompt", "Prompt:" ++ s.userPrompt),
           ("reply", "Reply:" ++ s.aiResponse ++ replyTail)]] ++
       (if hasCallback then
          [.callbackWinner p.modelIdentifier p.modelName s.userPrompt s.aiResponse]
        else []) ++
       [.reloadAfter 500])

/-- A rendered chat container in the document, keyed by its data-model
attribute. -/
structure DomNode where
  modelId : String
  visible : Bool
deriving Repr, DecidableEq

/-- Hide the first node whose data-model attribute matches id
(querySelector returns the first match). -/
def hideNode (id : String) : List DomNode → List DomNode
  | [] => []
  | n :: rest =>
      if n.modelId = id then { n with visible := false } :: rest
      else n :: hideNode id rest

/-- Fallback of handleDismiss: hide the first .chatContainer element. -/
def hideFirst : List DomNode → List DomNode
  | [] => []
  | n :: rest => { n with visible := false } :: rest

/-- The whole rendered page: coordinator state, the mounted chat
instances, and the DOM visibility of their containers. -/
structure PageState where
  app : AppState
  instances : List (ChatProps × ChatState)
  dom : List DomNode
deriving Repr, DecidableEq

/-- ChatInstance handleDismiss: hides the container whose data-model
matches this instance, or the first chat container as a fallback. It
touches neither React state nor localStorage. -/
def handleDismiss (id : String) (page : PageState) : PageState :=
  if page.dom.any (fun n => n.modelId = id) then
    { page with dom := hideNode id page.dom }
  else
    { page with dom := hideFirst page.dom }

/-- The initial coordinator state after a page load with consent granted:
the mount effects read activeModels back from localStorage, and every
container is rendered visible. -/
def reloadPage (page : PageState) : PageState :=
  let models := page.app.storage
  { app := { hasConsented := true
             masterPrompt := ""
             activeModels := models
             showAddModal := false
             isStarted := false
             triggerSend := 0
             selectedProvider := none
             availableModels := []
             loadingModels := false
             selectedModel := none
             apiKeyInput := ""
             savingApiKey := false
             saveMessage := ""
             instanceCount := 1
             storage := models }
    instances := models.map (fun m =>
      (⟨m.name, m.id, m.url, m.provider, m.encryptedApiKey⟩,
       ⟨"", "", false, false, false, none⟩))
    dom := models.map (fun m => ⟨m.id, true⟩) }

/-- A concrete coordinator state used to evaluate the claims: model
gpt selected for the unrecognized provider foobar, non-empty key input. -/
def c9App : AppState :=
  { hasConsented := true
    masterPrompt := ""
    activeModels := [⟨"a-1", "gpt", "openai", "", "https://chatgpt.com/c/?prompt=", "sk"⟩]
    showAddModal := true
    isStarted := false
    triggerSend := 0
    selectedProvider := some "foobar"
    availableModels := [ModelChoice.str "gpt"]
    loadingModels := false
    selectedModel := some (ModelChoice.str "gpt")
    apiKeyInput := "sk-key"
    savingApiKey := false
    saveMessage := ""
    instanceCount := 1
    storage := [⟨"a-1", "gpt", "openai", "", "https://chatgpt.com/c/?prompt=", "sk"⟩] }

/-- A coordinator state whose master prompt is the non-empty string hi. -/
def c1App : AppState :=
  { hasConsented := true
    masterPrompt := "hi"
    activeModels := []
    showAddModal := false
    isStarted := true
    triggerSend := 0
    selectedProvider := none
    availableModels := []
    loadingModels := false
    selectedModel := none
    apiKeyInput := ""
    savingApiKey := false
    saveMessage := ""
    instanceCount := 1
    storage := [] }

/-- Props of a chat instance whose API key is absent (falsy). -/
def c1PropsNoKey : ChatProps :=
  ⟨"gpt", "openai-gpt-1", "https://chatgpt.com/c/?prompt=", "openai", ""⟩

/-- Props of a chat instance whose API key is present. -/
def c1PropsKey : ChatProps :=
  ⟨"gpt", "openai-gpt-1", "https://chatgpt.com/c/?prompt=", "openai", "sk"⟩

/-- A chat-instance state synced to the master prompt hi. -/
def c1Chat : ChatState := ⟨"hi", "", false, false, false, none⟩

/-- The c9App coordinator state with the recognized provider openai
selected and two instances requested. -/
def c2App : AppState :=
  { c9App with selectedProvider := some "openai", instanceCount := 2 }

/-- A concrete rendered page: one mounted instance and two visible
containers. -/
def c6Page : PageState :=
  { app := c9App
    instances := [(c1PropsKey, c1Chat)]
    dom := [⟨"openai-gpt-1", true⟩, ⟨"other-2", true⟩] }

/-! ## Helper lemmas -/

theorem hideNode_mem (id : String) (n : DomNode) (hne : n.modelId ≠ id) :
    ∀ l : List DomNode, n ∈ hideNode id l → n ∈ l := by
  intro l
  induction l with
  | nil => intro h; simp [hideNode] at h
  | cons a rest ih =>
      intro h
      by_cases ha : a.modelId = id
      · simp only [hideNode, if_pos ha, List.mem_cons] at h
        rcases h with h | h
        · exact absurd (by rw [h]; exact ha) hne
        · exact List.mem_cons_of_mem _ h
      · simp only [hideNode, if_neg ha, List.mem_cons] at h
        rcases h with h | h
        · exact h ▸ List.mem_cons_self _ _
        · exact List.mem_cons_of_mem _ (ih h)

theorem handleSend_preserves_hidden (p : ChatProps) (s : ChatState)
    (o : ProcessOutcome) (h : s.isInputHidden = true) :
    (handleSend p s o).1.isInputHidden = true := by
  unfold handleSend
  split_ifs <;> cases o <;> simp_all

theorem chatStep_preserves_hidden (p : ChatProps) (s : ChatState) (e : ChatEvent)
    (h : s.isInputHidden = true) : (chatStep p s e).1.isInputHidden = true := by
  cases e with
  | editPrompt v => simp [chatStep, h]
  | masterSync v => simp [chatStep, h]
  | uiSend o => simp [chatStep, h]
  | trigger o => exact handleSend_preserves_hidden p s o h

theorem chatRun_preserves_hidden (p : ChatProps) (s : ChatState)
    (es : List ChatEvent) (h : s.isInputHidden = true) :
    (chatRun p s es).1.isInputHidden = true := by
  induction es generalizing s with
  | nil => simpa [chatRun] using h
  | cons e rest ih =>
      simp only [chatRun]
      exact ih _ (chatStep_preserves_hidden p s e h)

theorem getProviderURL_isOk_iff (name : String) :
    (getProviderURL name).isOk = true ↔ jsToLower name ∈ providerNames := by
  simp only [getProviderURL, providerNames]
  split_ifs with h₁ h₂ h₃ h₄ h₅ h₆ h₇ h₈ h₉ h₁₀ <;>
    simp_all [Except.isOk, Except.toBool, List.mem_cons]

theorem getProviderURL_unsupported (name : String)
    (hn : jsToLower name ∉ providerNames) :
    getProviderURL name = .error ("Unsupported provider: " ++ name) := by
  simp only [providerNames, List.mem_cons] at hn
  push_neg at hn
  simp only [getProviderURL]
  split_ifs with h₁ h₂ h₃ h₄ h₅ h₆ h₇ h₈ h₉ h₁₀ <;> simp_all

/-! ## Claim theorems -/

/-- Claim C10: the coordinator fetch helpers are total at their call
sites: whenever the try-block of fetchProviderModels throws (rejected
fetch, non-ok status or bad JSON) the function returns the empty list,
and on a delivered body it returns the models field or the empty list
when that field is absent; likewise fetchProviderApiKey returns none on
every thrown error and the (truthy) key or none on a delivered body. No
exception propagates to the caller. -/
theorem c10_fetch_helpers_total (o₁ : HttpOutcome ModelsBody) (o₂ : HttpOutcome KeyBody) :
    ((fetchProviderModelsTry o₁).isOk = false → fetchProviderModels o₁ = []) ∧
    (∀ b, o₁ = .ok b → fetchProviderModels o₁ = b.models.getD []) ∧
    ((fetchProviderApiKeyTry o₂).isOk = false → fetchProviderApiKey o₂ = none) ∧
    (∀ b, o₂ = .ok b → fetchProviderApiKey o₂ =
      (if jsTruthy b.apiKey then b.apiKey else none)) := by
  refine ⟨?_, ?_, ?_, ?_⟩
  · intro h
    cases o₁ <;>
      simp_all [fetchProviderModels, fetchProviderModelsTry, Except.isOk, Except.toBool]
  · intro b hb
    subst hb
    simp [fetchProviderModels, fetchProviderModelsTry]
  · intro h
    cases o₂ <;>
      simp_all [fetchProviderApiKey, fetchProviderApiKeyTry, Except.isOk, Except.toBool]
  · intro b hb
    subst hb
    simp [fetchProviderApiKey, fetchProviderApiKeyTry]

/-- Witness for C10 at concrete outcomes: an HTTP 500 yields the empty
model list, and a delivered body with key sk yields some sk. -/
theorem c10_fetch_helpers_total_witness :
    fetchProviderModels (HttpOutcome.httpError 500) = [] ∧
    fetchProviderApiKey (HttpOutcome.ok ⟨some "sk"⟩) = some "sk" := by
  constructor
  · exact (c10_fetch_helpers_total (HttpOutcome.httpError 500)
      (HttpOutcome.ok ⟨some "sk"⟩)).1 rfl
  · have h := (c10_fetch_helpers_total (HttpOutcome.httpError 500)
      (HttpOutcome.ok ⟨some "sk"⟩)).2.2.2 ⟨some "sk"⟩ rfl
    exact h.trans (by decide)

/-- Claim C9: getProviderURL succeeds exactly on the ten recognized
provider names, matched case-insensitively, and throws an Unsupported
provider error for every other name; and because handleSaveApiKey calls
it only after the key-save round trip succeeded, an unrecognized provider
aborts the add-model flow with the save request already issued but with
activeModels and the localStorage mirror unchanged. -/
theorem c9_unsupported_provider :
    (∀ name : String, (getProviderURL name).isOk = true ↔ jsToLower name ∈ providerNames) ∧
    (∀ name : String, jsToLower name ∉ providerNames →
      getProviderURL name = .error ("Unsupported provider: " ++ name)) ∧
    (∀ (icons : List IconEntry) (now : Nat) (rand : Nat → String) (s : AppState)
        (m : ModelChoice) (pr : String),
      jsTrim s.apiKeyInput ≠ "" →
      s.selectedModel = some m → m.isTruthy = true →
      s.selectedProvider = some pr → pr ≠ "" →
      jsToLower pr ∉ providerNames →
      (handleSaveApiKey icons now rand s .success).2 = [.saveKeyReq pr s.apiKeyInput] ∧
      (handleSaveApiKey icons now rand s .success).1.activeModels = s.activeModels ∧
      (handleSaveApiKey icons now rand s .success).1.storage = s.storage) := by
  refine ⟨getProviderURL_isOk_iff, getProviderURL_unsupported, ?_⟩
  intro icons now rand s m pr h1 hm hmt hp hpr hn
  have hurl := getProviderURL_unsupported pr hn
  simp [handleSaveApiKey, h1, hm, hmt, hp, hpr, hurl]

/-- Witness for C9 at concrete inputs: provider foobar is rejected, and
the aborted flow leaves the models of a concrete coordinator state
unchanged while having issued the save request. -/
theorem c9_unsupported_provider_witness :
    ((getProviderURL "OpenAI").isOk = true ↔ jsToLower "OpenAI" ∈ providerNames) ∧
    (getProviderURL "foobar" = .error ("Unsupported provider: " ++ "foobar")) ∧
    ((handleSaveApiKey [] 7 (fun _ => "r") c9App .success).2 =
        [.saveKeyReq "foobar" c9App.apiKeyInput] ∧
      (handleSaveApiKey [] 7 (fun _ => "r") c9App .success).1.activeModels =
        c9App.activeModels ∧
      (handleSaveApiKey [] 7 (fun _ => "r") c9App .success).1.storage = c9App.storage) := by
  refine ⟨(c9_unsupported_provider).1 "OpenAI",
          (c9_unsupported_provider).2.1 "foobar" (by decide), ?_⟩
  exact (c9_unsupported_provider).2.2 [] 7 (fun _ => "r") c9App (ModelChoice.str "gpt")
    "foobar" (by decide) rfl (by decide) rfl (by decide) (by decide)

/-- Claim C4: a send attempt with a non-empty prompt but a falsy API key
sets the displayed response to the message starting with API key missing
and issues no /api/process request; a send attempt with an all-whitespace
prompt issues no request and changes nothing. -/
theorem c4_missing_key (p : ChatProps) (s : ChatState) (o : ProcessOutcome) :
    (jsTrim s.userPrompt ≠ "" → p.encryptedApiKey = "" →
      (handleSend p s o).1.aiResponse = "API key missing. Please add it first." ∧
      (∃ rest, (handleSend p s o).1.aiResponse = "API key missing" ++ rest) ∧
      (handleSend p s o).2 = []) ∧
    (jsTrim s.userPrompt = "" → handleSend p s o = (s, [])) := by
  constructor
  · intro h1 h2
    refine ⟨?_, ⟨". Please add it first.", ?_⟩, ?_⟩ <;>
      simp [handleSend, h1, h2]
  · intro h1
    simp [handleSend, h1]

/-- Witness for C4: a concrete instance with prompt hi and empty key
shows the key-missing message and issues no request, and a whitespace
prompt is a no-op. -/
theorem c4_missing_key_witness :
    ((handleSend ⟨"m", "id1", "#", "openai", ""⟩ ⟨"hi", "", false, false, false, none⟩
        (ProcessOutcome.netError "x")).1.aiResponse =
      "API key missing. Please add it first." ∧
      (∃ rest, (handleSend ⟨"m", "id1", "#", "openai", ""⟩
        ⟨"hi", "", false, false, false, none⟩
        (ProcessOutcome.netError "x")).1.aiResponse = "API key missing" ++ rest) ∧
      (handleSend ⟨"m", "id1", "#", "openai", ""⟩ ⟨"hi", "", false, false, false, none⟩
        (ProcessOutcome.netError "x")).2 = []) ∧
    handleSend ⟨"m", "id1", "#", "openai", "sk"⟩ ⟨"  ", "", false, false, false, none⟩
      (ProcessOutcome.netError "x") = (⟨"  ", "", false, false, false, none⟩, []) := by
  constructor
  · exact (c4_missing_key ⟨"m", "id1", "#", "openai", ""⟩
      ⟨"hi", "", false, false, false, none⟩ (ProcessOutcome.netError "x")).1
      (by decide) rfl
  · exact (c4_missing_key ⟨"m", "id1", "#", "openai", "sk"⟩
      ⟨"  ", "", false, false, false, none⟩ (ProcessOutcome.netError "x")).2 (by decide)

/-- Claim C5: every winner selection posts the exchange (model
identifier, prompt, response) to /api/select-winner, on the successful
path opens the target provider URL in a new tab with the prompt and the
reply embedded as query parameters, and on every path (success, rejected
fetch, invalid URL) the last effect is the page reload after the fixed
500ms delay. -/
theorem c5_winner_flow (p : ChatProps) (s : ChatState) (hasCb : Bool) (o : WinnerOutcome) :
    (handleSelectWinner p s hasCb o).2.getLast? = some (.reloadAfter 500) ∧
    (handleSelectWinner p s hasCb o).1 =
      [.selectWinnerReq p.modelIdentifier s.userPrompt s.aiResponse] ∧
    (handleSelectWinner p s hasCb .okDone).2 =
      [.openTab p.modelUrl
        [("prompt", "Prompt:" ++ s.userPrompt),
         ("reply", "Reply:" ++ s.aiResponse ++ replyTail)]] ++
      (if hasCb then
        [.callbackWinner p.modelIdentifier p.modelName s.userPrompt s.aiResponse]
       else []) ++
      [.reloadAfter 500] := by
  refine ⟨?_, ?_, ?_⟩ <;> cases o <;> cases hasCb <;> simp [handleSelectWinner]

/-- Claim C1 counterexample: with master prompt hi the click increments
triggerSend by one and the instance prompt is synced, yet an active
instance whose API key is absent issues zero requests to /api/process on
that increment, refuting that every active instance issues exactly one
request. -/
theorem c1_counterexample :
    jsTrim c1App.masterPrompt ≠ "" ∧
    c1Chat.userPrompt = c1App.masterPrompt ∧
    (handleSendMasterPrompt c1App).triggerSend = c1App.triggerSend + 1 ∧
    (triggerEffect c1PropsNoKey (handleSendMasterPrompt c1App).triggerSend c1Chat
      (ProcessOutcome.netError "down")).2.length = 0 := by
  decide

/-- Claim C1 (amended): a click of the master send button with a
non-empty master prompt increments the monotonically non-decreasing
triggerSend counter by exactly one, and every active chat instance whose
API key is present issues exactly one /api/process request as a result of
the increment (an instance with an absent key issues none). -/
theorem c1_master_send_trigger (app : AppState) (p : ChatProps) (cs : ChatState)
    (o : ProcessOutcome)
    (hmp : jsTrim app.masterPrompt ≠ "") (hsync : cs.userPrompt = app.masterPrompt)
    (hkey : p.encryptedApiKey ≠ "") :
    (handleSendMasterPrompt app).triggerSend = app.triggerSend + 1 ∧
    (∀ a : AppState, a.triggerSend ≤ (handleSendMasterPrompt a).triggerSend) ∧
    (triggerEffect p (handleSendMasterPrompt app).triggerSend cs o).2 =
      [Request.processReq p.modelIdentifier cs.userPrompt p.encryptedApiKey] := by
  have htrig : (handleSendMasterPrompt app).triggerSend = app.triggerSend + 1 := by
    simp [handleSendMasterPrompt, hmp]
  refine ⟨htrig, ?_, ?_⟩
  · intro a
    unfold handleSendMasterPrompt
    split <;> simp
  · rw [htrig]
    have hup : jsTrim cs.userPrompt ≠ "" := by rw [hsync]; exact hmp
    cases o <;> simp [triggerEffect, handleSend, hup, hkey]

/-- Witness for the amended C1 at concrete inputs: master prompt hi, an
instance with key sk, a delivered reply. -/
theorem c1_master_send_trigger_witness :
    (handleSendMasterPrompt c1App).triggerSend = c1App.triggerSend + 1 ∧
    (∀ a : AppState, a.triggerSend ≤ (handleSendMasterPrompt a).triggerSend) ∧
    (triggerEffect c1PropsKey (handleSendMasterPrompt c1App).triggerSend c1Chat
      (ProcessOutcome.http true (some "hello") none)).2 =
      [Request.processReq "openai-gpt-1" "hi" "sk"] := by
  have h := c1_master_send_trigger c1App c1PropsKey c1Chat
    (ProcessOutcome.http true (some "hello") none) (by decide) rfl (by decide)
  exact ⟨h.1, h.2.1, by rw [h.2.2]; rfl⟩

/-- Claim C2: when the add-model flow completes successfully (non-empty
key input, selected model and provider, successful key save, provider URL
resolvable), exactly instanceCount new records are appended to
activeModels and to the localStorage mirror, with the pre-existing
records preserved in order as a prefix. -/
theorem c2_add_models (icons : List IconEntry) (now : Nat) (rand : Nat → String)
    (s : AppState) (m : ModelChoice) (pr url : String)
    (h1 : jsTrim s.apiKeyInput ≠ "") (hm : s.selectedModel = some m)
    (hmt : m.isTruthy = true) (hp : s.selectedProvider = some pr) (hpr : pr ≠ "")
    (hurl : getProviderURL pr = .ok url) :
    ∃ newRecs : List ModelRecord,
      newRecs.length = s.instanceCount ∧
      (handleSaveApiKey icons now rand s .success).1.activeModels =
        s.activeModels ++ newRecs ∧
      (handleSaveApiKey icons now rand s .success).1.storage =
        s.activeModels ++ newRecs := by
  refine ⟨(List.range s.instanceCount).map
      (mkNewRecord icons now rand pr m.modelName url s.apiKeyInput),
    by simp, ?_, ?_⟩ <;>
    simp [handleSaveApiKey, h1, hm, hmt, hp, hpr, hurl]

/-- Witness for C2: a concrete flow with provider openai and two
requested instances. -/
theorem c2_add_models_witness :
    ∃ newRecs : List ModelRecord,
      newRecs.length = c2App.instanceCount ∧
      (handleSaveApiKey [] 7 (fun _ => "r") c2App .success).1.activeModels =
        c2App.activeModels ++ newRecs ∧
      (handleSaveApiKey [] 7 (fun _ => "r") c2App .success).1.storage =
        c2App.activeModels ++ newRecs :=
  c2_add_models [] 7 (fun _ => "r") c2App (ModelChoice.str "gpt") "openai"
    "https://chatgpt.com/c/?prompt=" (by decide) rfl (by decide) rfl (by decide)
    (by rfl)

/-- Claim C3: when the key-save round trip fails, handleSaveApiKey sets
the literal message starting with the Failed to save marker followed by
the error text, returns early, leaves activeModels and the localStorage
mirror unchanged, and issues exactly one save request with no retry. -/
theorem c3_save_failure (icons : List IconEntry) (now : Nat) (rand : Nat → String)
    (s : AppState) (m : ModelChoice) (pr err : String)
    (h1 : jsTrim s.apiKeyInput ≠ "") (hm : s.selectedModel = some m)
    (hmt : m.isTruthy = true) (hp : s.selectedProvider = some pr) (hpr : pr ≠ "") :
    (handleSaveApiKey icons now rand s (.failure err)).1.saveMessage =
      "❌ Failed to save: " ++ err ∧
    (handleSaveApiKey icons now rand s (.failure err)).1.activeModels =
      s.activeModels ∧
    (handleSaveApiKey icons now rand s (.failure err)).1.storage = s.storage ∧
    (handleSaveApiKey icons now rand s (.failure err)).1.savingApiKey = false ∧
    (handleSaveApiKey icons now rand s (.failure err)).2 =
      [Request.saveKeyReq pr s.apiKeyInput] := by
  refine ⟨?_, ?_, ?_, ?_, ?_⟩ <;> simp [handleSaveApiKey, h1, hm, hmt, hp, hpr]

/-- Witness for C3: a concrete failing save round trip. -/
theorem c3_save_failure_witness :
    (handleSaveApiKey [] 7 (fun _ => "r") c2App (.failure "boom")).1.saveMessage =
      "❌ Failed to save: " ++ "boom" ∧
    (handleSaveApiKey [] 7 (fun _ => "r") c2App (.failure "boom")).1.activeModels =
      c2App.activeModels ∧
    (handleSaveApiKey [] 7 (fun _ => "r") c2App (.failure "boom")).1.storage =
      c2App.storage ∧
    (handleSaveApiKey [] 7 (fun _ => "r") c2App (.failure "boom")).1.savingApiKey =
      false ∧
    (handleSaveApiKey [] 7 (fun _ => "r") c2App (.failure "boom")).2 =
      [Request.saveKeyReq "openai" c2App.apiKeyInput] :=
  c3_save_failure [] 7 (fun _ => "r") c2App (ModelChoice.str "gpt") "openai" "boom"
    (by decide) rfl (by decide) rfl (by decide)

/-- Claim C6: dismissing a rendered instance changes only that DOM node:
the coordinator state (activeModels and the localStorage mirror) and
every mounted instance state are untouched, every other DOM node is
unchanged, and after a page reload the page is rebuilt from the unchanged
localStorage so the dismissed instance reappears visible. -/
theorem c6_dismiss_frame (page : PageState) (id : String)
    (hid : page.dom.any (fun n => n.modelId = id) = true) :
    (handleDismiss id page).app = page.app ∧
    (handleDismiss id page).instances = page.instances ∧
    (∀ n, n ∈ (handleDismiss id page).dom → n.modelId ≠ id → n ∈ page.dom) ∧
    (reloadPage (handleDismiss id page)).app.activeModels = page.app.storage ∧
    (∀ m, m ∈ page.app.storage →
      (⟨m.id, true⟩ : DomNode) ∈ (reloadPage (handleDismiss id page)).dom) := by
  have hD : handleDismiss id page = { page with dom := hideNode id page.dom } := by
    simp [handleDismiss, hid]
  refine ⟨by rw [hD], by rw [hD], ?_, ?_, ?_⟩
  · intro n hn hne
    rw [hD] at hn
    exact hideNode_mem id n hne page.dom hn
  · rw [hD]
    simp [reloadPage]
  · intro m hm
    rw [hD]
    simp only [reloadPage]
    exact List.mem_map.mpr ⟨m, hm, rfl⟩

/-- Witness for C6: dismissing the first of two rendered containers on a
concrete page. -/
theorem c6_dismiss_frame_witness :
    (handleDismiss "openai-gpt-1" c6Page).app = c6Page.app ∧
    (handleDismiss "openai-gpt-1" c6Page).instances = c6Page.instances ∧
    (∀ n, n ∈ (handleDismiss "openai-gpt-1" c6Page).dom →
      n.modelId ≠ "openai-gpt-1" → n ∈ c6Page.dom) ∧
    (reloadPage (handleDismiss "openai-gpt-1" c6Page)).app.activeModels =
      c6Page.app.storage ∧
    (∀ m, m ∈ c6Page.app.storage →
      (⟨m.id, true⟩ : DomNode) ∈ (reloadPage (handleDismiss "openai-gpt-1" c6Page)).dom) :=
  c6_dismiss_frame c6Page "openai-gpt-1" (by decide)

/-- Claim C7: once a send attempt passes its guards and completes, the
finally block hides the input and shows the action buttons; the hidden
input is an absorbing state across every later event, and in that state
no event other than a trigger increment can issue a request, since the
instance send button is no longer rendered. -/
theorem c7_terminal_state (p : ChatProps) (s : ChatState) (o : ProcessOutcome)
    (hprompt : jsTrim s.userPrompt ≠ "") (hkey : p.encryptedApiKey ≠ "") :
    (handleSend p s o).1.isInputHidden = true ∧
    (handleSend p s o).1.showButtons = true ∧
    (∀ es : List ChatEvent,
      (chatRun p (handleSend p s o).1 es).1.isInputHidden = true) ∧
    (∀ (s' : ChatState) (e : ChatEvent), s'.isInputHidden = true →
      e.isTrigger = false → (chatStep p s' e).2 = []) := by
  have hsend : (handleSend p s o).1.isInputHidden = true ∧
      (handleSend p s o).1.showButtons = true := by
    cases o <;> simp [handleSend, hprompt, hkey]
  refine ⟨hsend.1, hsend.2, ?_, ?_⟩
  · intro es
    exact chatRun_preserves_hidden p _ es hsend.1
  · intro s' e hh ht
    cases e with
    | editPrompt v => simp [chatStep, hh]
    | masterSync v => simp [chatStep]
    | uiSend o' => simp [chatStep, hh]
    | trigger o' => simp [ChatEvent.isTrigger] at ht

/-- Witness for C7: a concrete completed send followed by an edit, a
click on the (unrendered) send button and a master sync. -/
theorem c7_terminal_state_witness :
    (handleSend c1PropsKey c1Chat (ProcessOutcome.http true (some "ok") none)).1.isInputHidden = true ∧
    (handleSend c1PropsKey c1Chat (ProcessOutcome.http true (some "ok") none)).1.showButtons = true ∧
    (∀ es : List ChatEvent,
      (chatRun c1PropsKey
        (handleSend c1PropsKey c1Chat (ProcessOutcome.http true (some "ok") none)).1
        es).1.isInputHidden = true) ∧
    (∀ (s' : ChatState) (e : ChatEvent), s'.isInputHidden = true →
      e.isTrigger = false → (chatStep c1PropsKey s' e).2 = []) :=
  c7_terminal_state c1PropsKey c1Chat (ProcessOutcome.http true (some "ok") none)
    (by decide) (by decide)

/-- Claim C8: the on-mount key fetch of a chat instance never changes the
instance state; when the server delivers a truthy key the handler raises
the ReferenceError for the unbound setEncryptedApiKey, which its own
catch turns into a console log only; and every /api/process request built
by handleSend carries the prop-supplied encryptedApiKey. -/
theorem c8_key_fetch_reference_error (s : ChatState) (o : KeyFetchOutcome)
    (k : String) (hk : k ≠ "") :
    (fetchApiKeyEffect s o).1 = s ∧
    fetchApiKeyTry (.httpRes true (some k)) =
      .error "ReferenceError: setEncryptedApiKey is not defined" ∧
    fetchApiKeyEffect s (.httpRes true (some k)) =
      (s, [.consoleError
        "Failed to load API key: ReferenceError: setEncryptedApiKey is not defined"]) ∧
    (∀ (p : ChatProps) (s' : ChatState) (o' : ProcessOutcome) (r : Request),
      r ∈ (handleSend p s' o').2 →
      r = .processReq p.modelIdentifier s'.userPrompt p.encryptedApiKey) := by
  have htry : fetchApiKeyTry (KeyFetchOutcome.httpRes true (some k)) =
      .error "ReferenceError: setEncryptedApiKey is not defined" := by
    simp [fetchApiKeyTry, jsTruthy, hk]
  refine ⟨?_, htry, ?_, ?_⟩
  · unfold fetchApiKeyEffect
    cases fetchApiKeyTry o <;> simp
  · unfold fetchApiKeyEffect
    rw [htry]
    rfl
  · intro p s' o' r hr
    unfold handleSend at hr
    split_ifs at hr with h1 h2
    · simp at hr
    · simp at hr
    · cases o' <;> simp_all

/-- Witness for C8: a delivered key sk on a concrete instance state. -/
theorem c8_key_fetch_reference_error_witness :
    (fetchApiKeyEffect c1Chat (KeyFetchOutcome.netError "x")).1 = c1Chat ∧
    fetchApiKeyTry (.httpRes true (some "sk")) =
      .error "ReferenceError: setEncryptedApiKey is not defined" ∧
    fetchApiKeyEffect c1Chat (.httpRes true (some "sk")) =
      (c1Chat, [.consoleError
        "Failed to load API key: ReferenceError: setEncryptedApiKey is not defined"]) ∧
    (∀ (p : ChatProps) (s' : ChatState) (o' : ProcessOutcome) (r : Request),
      r ∈ (handleSend p s' o').2 →
      r = .processReq p.modelIdentifier s'.userPrompt p.encryptedApiKey) :=
  c8_key_fetch_reference_error c1Chat (KeyFetchOutcome.netError "x") "sk" (by decide)

end ReplyArena
